import Mathlib

/-!
Verification of the wg750xxx driver (WAGO 750 series Modbus/TCP host driver)
against its natural-language specification.

The definitions below are a shallow embedding of the Python sources:
  * `src/wg750xxx/modbus/registers.py`  — `Words` / `Bits` containers,
  * `src/wg750xxx/modbus/state.py`      — `ModbusConnection` facade, cache,
    `auto_reconnect` retry wrapper and the continuous-update poller,
  * `src/wg750xxx/hub.py`               — module discovery,
  * `src/wg750xxx/modules/dali/dali_commands.py` — DALI gateway queries,
  * `src/wg750xxx/modules/counter/counter_communication.py` — counter protocol,
  * `src/wg750xxx/modules/channel.py`   — high-level channel callbacks.

16-bit register cells are represented as `Nat` (with `% 2^16` bounds made
explicit where they matter), bit cells as `Bool`, container contents as lists,
and wire traffic as explicit lists of `WireOp` values so that "what hits the
transport" is an inspectable value.
-/

namespace Wg750

/-! ### Register primitives (`registers.py`) -/

/-- `Words.value_to_int` (registers.py:73-77): little-cell, big-within-cell
integer value `∑ᵢ wordᵢ · 2^(16·i)`.  (The `size == 1` early-return branch of
the source agrees with the general sum on singletons.) -/
def wordsValueToInt (ws : List Nat) : Nat :=
  (ws.enum.map (fun p => p.2 * 2 ^ (16 * p.1))).sum

/-- `np.array(i, dtype=np.uint16)` applied to a Python `int`, as done by
`Words.__init__` (registers.py:26) when handed an integer instead of a list:
out-of-range values raise `OverflowError` (modelled as `none`); in-range values
produce a 0-dimensional scalar array holding the value. -/
def npUint16Scalar (i : Nat) : Option Nat :=
  if i < 65536 then some i else none

/-- Operand of a `Bits.__eq__` / `Words.__eq__` comparison: either a `Words`
(list of 16-bit cells) or a `Bits` (list of booleans). -/
inductive RegOperand where
  | words (ws : List Nat)
  | bits (bs : List Bool)
  deriving DecidableEq, Repr

/-- `Bits.copy` (registers.py:181-183): a fresh array with the same content. -/
def bitsCopy (bs : List Bool) : List Bool := bs

/-- `Bits.__eq__` (registers.py:266-272), verbatim structure:
`isinstance(other, Words)` — note: `Words`, not `Bits` — else `False`;
then width comparison; then `np.array_equal(self._bits, other.value)`, which
compares booleans against integer cells with `True = 1`, `False = 0`. -/
def bitsEqPy (self : List Bool) : RegOperand → Bool
  | .words ws =>
      self.length == ws.length &&
        decide (self.map (fun b => if b then 1 else 0) = ws)
  | .bits _ => false

/-! ### Wire operations and the `ModbusConnection` facade (`state.py`) -/

/-- A single request issued to the underlying `ModbusTcpClient`. -/
inductive WireOp where
  | readInputRegisters (address count : Nat)
  | readHoldingRegisters (address count : Nat)
  | readDiscreteInputs (address count : Nat)
  | readCoils (address count : Nat)
  | writeSingleCoil (address : Nat) (value : Bool)
  | writeMultipleCoils (address : Nat) (values : List Bool)
  | writeSingleRegister (address value : Nat)
  | writeMultipleRegisters (address : Nat) (values : List Nat)
  deriving DecidableEq, Repr

/-- The `bits_in_state` widths reported by the controller (state.py:82):
number of bits per address space; word spaces are multiples of 16. -/
structure BitsInState where
  inputBits : Nat
  holdingBits : Nat
  discreteBits : Nat
  coilBits : Nat
  deriving DecidableEq, Repr

/-- Wire reads issued by `ModbusConnection.update_input_state`
(state.py:115-140): base address 0x0000, width defaulting to
"rest of the space". -/
def updateInputStateOps (b : BitsInState) (address width : Option Nat) : List WireOp :=
  let a := address.getD 0x0000
  let w := width.getD (b.inputBits / 16 - a)
  [.readInputRegisters a w]

/-- Wire reads issued by `ModbusConnection.update_holding_state`
(state.py:142-173): the 0-based local address is offset by 0x0200 before
talking to the wire; the default width covers the rest of the space. -/
def updateHoldingStateOps (b : BitsInState) (address width : Option Nat) : List WireOp :=
  let a := match address with
    | none => 0x0200
    | some x => x + 0x0200
  let w := width.getD (b.holdingBits / 16 + 0x0200 - a)
  [.readHoldingRegisters a w]

/-- Wire reads issued by `ModbusConnection.update_discrete_state`
(state.py:175-203): base address 0x0000. -/
def updateDiscreteStateOps (b : BitsInState) (address width : Option Nat) : List WireOp :=
  let a := address.getD 0x0000
  let w := width.getD (b.discreteBits - a)
  [.readDiscreteInputs a w]

/-- Wire reads issued by `ModbusConnection.update_coil_state`
(state.py:205-232): local address offset by 0x0200 on the wire. -/
def updateCoilStateOps (b : BitsInState) (address width : Option Nat) : List WireOp :=
  let a := match address with
    | none => 0x0200
    | some x => x + 0x0200
  let w := width.getD (b.coilBits + 0x0200 - a)
  [.readCoils a w]

/-- `ModbusConnection.write_coil` (state.py:530-541): one
`write_coil(address, value)` on the TCP client — the address is passed through
unmodified — followed by a full `update_coil_state()` refresh. -/
def writeCoilOps (b : BitsInState) (address : Nat) (value : Bool) : List WireOp :=
  .writeSingleCoil address value :: updateCoilStateOps b none none

/-- `ModbusConnection.write_coils` (state.py:543-559). -/
def writeCoilsOps (b : BitsInState) (address : Nat) (values : List Bool) : List WireOp :=
  .writeMultipleCoils address values :: updateCoilStateOps b none none

/-- `ModbusConnection.write_register` (state.py:561-577): one
`write_register(address, value)` with the address passed through unmodified,
followed by a full `update_holding_state()` refresh. -/
def writeRegisterOps (b : BitsInState) (address value : Nat) : List WireOp :=
  .writeSingleRegister address value :: updateHoldingStateOps b none none

/-- `ModbusConnection.write_registers` (state.py:579-596). -/
def writeRegistersOps (b : BitsInState) (address : Nat) (values : List Nat) : List WireOp :=
  .writeMultipleRegisters address values :: updateHoldingStateOps b none none

/-- The cached process image held in `ModbusConnection.state` (state.py:83-90):
one array per address space, sized from `bits_in_state` at construction. -/
structure ConnState where
  inputState : List Nat
  holdingState : List Nat
  discreteState : List Bool
  coilState : List Bool
  deriving DecidableEq, Repr

/-- `ModbusConnection.read_coil` with `update=False` (state.py:496-508): a pure
cache lookup `self.state["coil"][address]`; an address beyond the array raises
an uncaught `IndexError` (modelled as `none`). -/
def readCoilCached (st : ConnState) (address : Nat) : Option Bool :=
  st.coilState.get? address

/-- `ModbusConnection.read_input_register` with `update=False`
(state.py:379-395): a pure cache lookup; an out-of-range address raises an
uncaught `IndexError` (modelled as `none`). -/
def readInputRegisterCached (st : ConnState) (address : Nat) : Option Nat :=
  st.inputState.get? address

/-- Wire traffic of `ModbusConnection.read_coil` (state.py:496-508): only the
`update=True` branch calls `update_coil_state(address)`; with `update=False`
the transport is never touched. -/
def readCoilWireOps (b : BitsInState) (address : Nat) (update : Bool) : List WireOp :=
  if update then updateCoilStateOps b (some address) none else []

/-- Wire traffic of `ModbusConnection.read_input_register` (state.py:379-395). -/
def readInputRegisterWireOps (b : BitsInState) (address : Nat) (update : Bool) : List WireOp :=
  if update then updateInputStateOps b (some address) none else []

/-! ### `auto_reconnect` retry policy (state.py:26-41) -/

/-- Outcome of one attempt of a wrapped transport call. -/
inductive CallOutcome (α : Type) where
  | ok (v : α)
  | brokenPipe
  | otherError
  deriving DecidableEq, Repr

/-- Result observed by the caller of an `auto_reconnect`-wrapped method. -/
inductive CallResult (α : Type) where
  | ok (v : α)
  | commError
  | raised
  deriving DecidableEq, Repr

/-- One socket-level action of `ModbusConnection.reconnect`. -/
inductive SocketOp where
  | closeSocket
  | connectSocket
  deriving DecidableEq, Repr

/-- `ModbusConnection.reconnect` (state.py:107-113): close the socket first
only when it is open, then connect. -/
def reconnectOps (socketOpen : Bool) : List SocketOp :=
  if socketOpen then [.closeSocket, .connectSocket] else [.connectSocket]

/-- The retry loop of `auto_reconnect` (state.py:26-41): `outcome n` is the
result of the n-th attempt of the wrapped call; `fuel` is the remaining number
of loop iterations (`retries = 3`).  `BrokenPipeError` triggers
`self.reconnect()` and another iteration; any other exception propagates; when
the loop ends, `ModbusCommunicationError` is raised.  Returns the caller-visible
result together with the number of `reconnect()` calls performed. -/
def autoReconnectGo (outcome : Nat → CallOutcome α) :
    Nat → Nat → Nat → CallResult α × Nat
  | 0, _, reconnects => (.commError, reconnects)
  | fuel + 1, attempt, reconnects =>
    match outcome attempt with
    | .ok v => (.ok v, reconnects)
    | .otherError => (.raised, reconnects)
    | .brokenPipe => autoReconnectGo outcome fuel (attempt + 1) (reconnects + 1)

/-- `auto_reconnect` with its default `retries = 3`. -/
def autoReconnect (outcome : Nat → CallOutcome α) : CallResult α × Nat :=
  autoReconnectGo outcome 3 0 0

/-! ### Continuous-update poller (state.py:241-288) and change callbacks
(channel.py:142-159) -/

/-- The per-region timers held by `ModbusConnection` (state.py:94-105):
update intervals and last-refresh timestamps.  The source keeps these as
seconds in floats; they are modelled as abstract `Nat` time units, which
preserves every comparison the loop performs. -/
structure PollerClock where
  inputInterval : Nat
  holdingInterval : Nat
  discreteInterval : Nat
  coilInterval : Nat
  lastInput : Nat
  lastHolding : Nat
  lastDiscrete : Nat
  lastCoil : Nat
  deriving DecidableEq, Repr

/-- One change notification delivered to a registered listener (the payload the
specification requires: new value and channel reference, here identified by
region and address). -/
structure Dispatched where
  address : Nat
  newValueWord : Nat
  deriving DecidableEq, Repr

/-- Result of one iteration of the `_continuous_update` loop body. -/
structure TickResult where
  newState : ConnState
  newClock : PollerClock
  dispatched : List Dispatched
  deriving DecidableEq, Repr

/-- One iteration of `ModbusConnection._continuous_update` (state.py:248-288):
each region whose `current_time - last >= interval` is refreshed with the data
read from the wire (`wireInput`, ... are the full-region contents returned by
the transport) and its timestamp set to `current_time`.  The loop body contains
no diffing and no callback dispatch, so the `dispatched` component is empty by
construction of the source. -/
def continuousUpdateTick (now : Nat) (ck : PollerClock) (st : ConnState)
    (wireInput wireHolding : List Nat) (wireDiscrete wireCoil : List Bool) :
    TickResult :=
  let doInput := ck.inputInterval ≤ now - ck.lastInput
  let doHolding := ck.holdingInterval ≤ now - ck.lastHolding
  let doDiscrete := ck.discreteInterval ≤ now - ck.lastDiscrete
  let doCoil := ck.coilInterval ≤ now - ck.lastCoil
  { newState :=
      { inputState := if doInput then wireInput else st.inputState
        holdingState := if doHolding then wireHolding else st.holdingState
        discreteState := if doDiscrete then wireDiscrete else st.discreteState
        coilState := if doCoil then wireCoil else st.coilState }
    newClock :=
      { ck with
        lastInput := if doInput then now else ck.lastInput
        lastHolding := if doHolding then now else ck.lastHolding
        lastDiscrete := if doDiscrete then now else ck.lastDiscrete
        lastCoil := if doCoil then now else ck.lastCoil }
    dispatched := [] }

/-- The complete mutable state a `ModbusConnection` owns (state.py:81-105):
the cached process image, the poller timers, and the running flag.  The
constructor creates no callback registration map and the class defines no
`register_channel_callback` / `unregister_channel_callback` methods. -/
structure ModbusConnectionState where
  cache : ConnState
  clock : PollerClock
  running : Bool
  deriving DecidableEq, Repr

/-- A high-level channel as far as callback registration is concerned
(channel.py:48-73): the stored `_on_change_callback`, identified by a numeric
callback id (`none` = unregistered). -/
structure WagoChannelRec where
  onChangeCallback : Option Nat
  deriving DecidableEq, Repr

/-- The `WagoChannel.on_change_callback` setter (channel.py:142-154): it stores
the callback on the channel itself; the guarded call
`self.modbus_channel.modbus_connection.register_channel_callback(...)` is
skipped because `hasattr(connection, "register_channel_callback")` is false —
`ModbusConnection` defines no such attribute — so the connection state is
returned untouched. -/
def setOnChangeCallback (ch : WagoChannelRec) (conn : ModbusConnectionState)
    (cb : Option Nat) : WagoChannelRec × ModbusConnectionState :=
  ({ ch with onChangeCallback := cb }, conn)

/-! ### Module discovery (hub.py:177-198) -/

/-- The three wire reads issued by `Hub._get_connected_modules_from_controller`
(hub.py:181-183): `read_input_registers(0x2030 + i, count=64)` for
`i = 0, 1, 2`. -/
def discoveryReadOps : List WireOp :=
  (List.range 3).map (fun i => .readInputRegisters (0x2030 + i) 64)

/-- The concatenated register values those three reads return, given the
controller's input-register contents `mem` (address ↦ 16-bit value). -/
def discoveryRegisterValues (mem : Nat → Nat) : List Nat :=
  (List.range 3).flatMap (fun i => (List.range 64).map (fun j => mem (0x2030 + i + j)))

/-- The identifier words a discovery run instantiates modules from
(hub.py:184-198): one module is appended for every value with
`value != 0 and (len(self.modules) < 1 or reset)`, in list order; zeros are
skipped, they do not terminate the loop. -/
def discoveredModuleIdentifiers (mem : Nat → Nat) (reset : Bool) : List Nat :=
  (discoveryRegisterValues mem).foldl
    (fun acc v => if v ≠ 0 ∧ (acc.length < 1 ∨ reset = true) then acc ++ [v] else acc) []

/-! ### Module identifier decoder

`hub.py` imports `ModuleIdentifier` from `wg750xxx/modules/identifier.py` and
the family catalogue from `wg750xxx/modules/module.py`; neither file is in the
tree — only `spec.py` (the descriptor dataclasses) and callers are.  The
decoder below is therefore modelled from the specification (§4.5). -/

/-- `IOType` (modules/spec.py:9-21). -/
structure IOTypeM where
  digital : Bool
  input : Bool
  output : Bool
  deriving DecidableEq, Repr

/-- Per-space channel counts of a module descriptor (`ModbusChannelSpec`):
digital spaces counted in bits, word spaces in 16-bit cells. -/
structure ChannelCountsM where
  coil : Nat
  discrete : Nat
  input : Nat
  holding : Nat
  deriving DecidableEq, Repr

/-- `ModuleSpec` (modules/spec.py:24-31). -/
structure ModuleSpecM where
  ioType : IOTypeM
  channels : ChannelCountsM
  moduleType : String
  deriving DecidableEq, Repr

/-- Modelled from the spec: the generic descriptor produced for unknown
non-digital identifier values — no channels in any space (§4.5: "Unknown
non-digital codes yield the generic descriptor (no channels)"). -/
def genericModuleSpec : ModuleSpecM :=
  { ioType := { digital := false, input := false, output := false }
    channels := { coil := 0, discrete := 0, input := 0, holding := 0 }
    moduleType := "Generic" }

/-- Modelled from the spec: the static catalogue of known non-digital families
(§4.5 lists 352, 459, 453, 460, 451, 404, 559, 641 as known keys).  Only the
entry for 641 (DALI master: 3 input words, 3 holding words, analog in+out) and
the per-S1 shape of 352 (8 discrete bits, digital input) are pinned by the
specification; the remaining entries carry their family key only — no claim
below depends on their widths. -/
def knownFamilies : List (Nat × ModuleSpecM) :=
  [ (352, { ioType := { digital := true, input := true, output := false }
            channels := { coil := 0, discrete := 8, input := 0, holding := 0 }
            moduleType := "352" })
  , (459, { ioType := { digital := false, input := true, output := false }
            channels := { coil := 0, discrete := 0, input := 4, holding := 0 }
            moduleType := "459" })
  , (453, { ioType := { digital := false, input := true, output := false }
            channels := { coil := 0, discrete := 0, input := 4, holding := 0 }
            moduleType := "453" })
  , (460, { ioType := { digital := false, input := true, output := false }
            channels := { coil := 0, discrete := 0, input := 4, holding := 0 }
            moduleType := "460" })
  , (451, { ioType := { digital := false, input := true, output := false }
            channels := { coil := 0, discrete := 0, input := 8, holding := 0 }
            moduleType := "451" })
  , (404, { ioType := { digital := false, input := true, output := false }
            channels := { coil := 0, discrete := 0, input := 1, holding := 0 }
            moduleType := "404" })
  , (559, { ioType := { digital := false, input := false, output := true }
            channels := { coil := 0, discrete := 0, input := 0, holding := 4 }
            moduleType := "559" })
  , (641, { ioType := { digital := false, input := true, output := true }
            channels := { coil := 0, discrete := 0, input := 3, holding := 3 }
            moduleType := "641" }) ]

/-- Modelled from the spec: the `ModuleIdentifier` decoder (§4.5,
`wg750xxx/modules/identifier.py` is not in the tree).  If bit 15 of the 16-bit
word is set, the value describes a generic digital module: bit 14 gives the
direction (0 = input → discrete cells, 1 = output → coil cells) and bits 7..0
the channel count in bits.  Otherwise the value is a family number looked up in
the static catalogue; unknown numbers yield the generic descriptor. -/
def moduleIdentifierDecode (w : Nat) : ModuleSpecM :=
  if w.testBit 15 then
    let count := w &&& 0xFF
    let isOutput := w.testBit 14
    { ioType := { digital := true, input := !isOutput, output := isOutput }
      channels :=
        if isOutput then { coil := count, discrete := 0, input := 0, holding := 0 }
        else { coil := 0, discrete := count, input := 0, holding := 0 }
      moduleType := "Digital" }
  else
    match knownFamilies.lookup w with
    | some s => s
    | none => genericModuleSpec

/-! ### DALI gateway queries (dali_commands.py) -/

/-- `iterate_bits` (modules/dali/misc.py:6-9) composed with the comprehension
`[i for bit, i in iterate_bits(byte) if bit]`: positions of the set bits of a
byte, least significant first. -/
def bitPositions (byte : Nat) : List Nat :=
  (List.range 8).filter (fun i => (byte >>> i) &&& 1 == 1)

/-- Modelled from the spec: `DaliInputMessage`
(`modules/dali/dali_communication.py` is not in the tree; only its importers
are).  Per §4.9 the response carries the DALI response byte (input word 0, high
byte) and three additional response data bytes `message_1`, `message_2`,
`message_3` from input words 1..2 in little order. -/
structure DaliInputMessage where
  daliResponse : Nat
  message1 : Nat
  message2 : Nat
  message3 : Nat
  deriving DecidableEq, Repr

/-- `DaliCommands._dali_response_to_channel_list` (dali_commands.py:206-219):
the four response bytes are expanded to bit positions in the group order
`dali_response` (offset+0..7), `message_3` (offset+8..15), `message_2`
(offset+16..23), `message_1` (offset+24..31); a `None` response yields the
empty list. -/
def daliResponseToChannelList (response : Option DaliInputMessage) (offset : Nat) :
    List Nat :=
  match response with
  | none => []
  | some r =>
    (bitPositions r.daliResponse).map (fun i => offset + i)
      ++ (bitPositions r.message3).map (fun i => offset + 8 + i)
      ++ (bitPositions r.message2).map (fun i => offset + 16 + i)
      ++ (bitPositions r.message1).map (fun i => offset + 24 + i)

/-- `DaliCommands.query_short_address_present` (dali_commands.py:36-55): the
first half (command extension 0x06, short addresses 0..31) at offset 0, the
second half (extension 0x07, addresses 32..63) at offset 32, concatenated.
The gateway round trip `dali_communication_register.write(..., response=True)`
is modelled by its result: the two `DaliInputMessage` responses. -/
def queryShortAddressPresent (firstHalf secondHalf : Option DaliInputMessage) :
    List Nat :=
  daliResponseToChannelList firstHalf 0 ++ daliResponseToChannelList secondHalf 32

/-- The response byte covering short address `p` (0 ≤ p < 64): byte `p / 8`
in the group order of `_dali_response_to_channel_list`, first half then
second half. -/
def responseByteFor (fh sh : DaliInputMessage) (p : Nat) : Nat :=
  match p / 8 with
  | 0 => fh.daliResponse
  | 1 => fh.message3
  | 2 => fh.message2
  | 3 => fh.message1
  | 4 => sh.daliResponse
  | 5 => sh.message3
  | 6 => sh.message2
  | _ => sh.message1

/-- Specification-side reference for the presence query: the ascending list of
all short addresses 0..63 whose bit (LSB = address 0 within its byte) is set in
the covering response byte. -/
def shortAddressPresentSpec (fh sh : DaliInputMessage) : List Nat :=
  (List.range 64).filter (fun p => (responseByteFor fh sh p).testBit (p % 8))

/-! ### Counter sub-protocol (counter_communication.py, counter/channels.py) -/

/-- Python's `int.to_bytes()` as called at counter_communication.py:128 — with
no arguments, `length` defaults to 1, so any value ≥ 256 raises
`OverflowError` (modelled as `none`). -/
def intToBytesDefault (v : Nat) : Option (List Nat) :=
  if v < 256 then some [v] else none

/-- Modelled from the spec: `Register.bits()` bit access used by
`CounterControlByte._set_and_write` (counter_communication.py:16-19) —
`registers.py` under src/ defines no `bits()` method, the repo's newer register
API does.  Setting bit `i` of a 16-bit word. -/
def wordSetBit (w i : Nat) (v : Bool) : Nat :=
  if v then w ||| 2 ^ i else w &&& (65535 - 2 ^ i)

/-- Everything observable about one run of the `CounterCommunicationRegister.value`
setter (counter_communication.py:125-132). -/
structure CounterSetTrace where
  wireOps : List WireOp
  localInputCopyAfter : List Nat
  discardedCacheReads : Nat
  raisesTimeout : Bool
  finalSetCounterBit : Bool
  deriving DecidableEq, Repr

/-- The `value` setter of `CounterCommunicationRegister`
(counter_communication.py:125-132), for a module at holding base `holdingAddr`
whose cached 3-word input snapshot (taken at construction,
counter_communication.py:111-118) is `inputSnapshot` and whose control word is
`controlWord`:
1. `self.input_register[1:3] = Words(value.to_bytes())` — mutates the *local
   input-register copy* (a plain numpy slice assignment, no Modbus traffic;
   the single byte produced by `to_bytes()` broadcasts into both cells);
2. `self.control_byte.set_counter = True` — sets bit 5 of the control-word
   copy and issues `write_registers(holdingAddr, register)`;
3. `if self.status_byte.ack_set_counter:` — one call of
   `CounterStatusByte._read` (counter_communication.py:69-72), which performs a
   cache-only `read_input_registers(addr, 1)` whose result is discarded and
   then returns bit 5 of the *stale* word-0 snapshot;
4. only if that bit is already set, `set_counter` is cleared with a second
   `write_registers`.
A value ≥ 256 makes step 1 raise (`none`); there is no loop, no timeout. -/
def counterValueSet (b : BitsInState) (holdingAddr : Nat) (controlWord : Nat)
    (inputSnapshot : List Nat) (v : Nat) : Option CounterSetTrace :=
  match intToBytesDefault v with
  | none => none
  | some bytes =>
    let byte := bytes.getD 0 0
    let ack := (inputSnapshot.getD 0 0).testBit 5
    let w1 := wordSetBit controlWord 5 true
    some
      { wireOps :=
          writeRegistersOps b holdingAddr [w1]
            ++ (if ack then writeRegistersOps b holdingAddr [wordSetBit w1 5 false] else [])
        localInputCopyAfter := (inputSnapshot.set 1 byte).set 2 byte
        discardedCacheReads := 1
        raisesTimeout := false
        finalSetCounterBit := !ack }

/-! ## Helper lemmas -/

/-- The source's set-bit test `(byte >> i) & 1 == 1` agrees with `Nat.testBit`. -/
theorem shiftAndOneBeq (b i : Nat) : ((b >>> i) &&& 1 == 1) = b.testBit i := by
  rw [Nat.and_one_is_mod, Nat.shiftRight_eq_div_pow, Nat.testBit_to_div_mod]
  rcases Nat.mod_two_eq_zero_or_one (b / 2 ^ i) with h | h <;> rw [h] <;> rfl

/-- `bitPositions` as a `testBit` filter. -/
theorem bitPositions_eq_filter_testBit (b : Nat) :
    bitPositions b = (List.range 8).filter (fun i => b.testBit i) :=
  List.filter_congr (fun i _ => shiftAndOneBeq b i)

/-- Filtering one 8-address block of the presence-query range. -/
theorem filterBlock (P : Nat → Bool) (b c : Nat)
    (h : ∀ i, i < 8 → P (c + i) = b.testBit i) :
    List.filter P ((List.range 8).map (fun i => c + i)) =
      ((List.range 8).filter (fun i => b.testBit i)).map (fun i => c + i) := by
  rw [List.filter_map]
  congr 1
  apply List.filter_congr
  intro i hi
  exact h i (List.mem_range.mp hi)

/-- Cache lookup, written as an explicit range check. -/
theorem listGetQIte (l : List α) (a : Nat) (d : α) :
    l.get? a = if a < l.length then some (l.getD a d) else none := by
  by_cases h : a < l.length
  · simp [h, List.getElem?_eq_getElem h]
  · simp [h, List.getElem?_eq_none (Nat.le_of_not_lt h)]

/-- The source's presence query agrees, for every pair of response messages,
with the specification-side reference list: the ascending addresses 0..63
whose bit is set in the covering response byte. -/
theorem shortAddressPresent_eq_spec (fh sh : DaliInputMessage) :
    queryShortAddressPresent (some fh) (some sh) = shortAddressPresentSpec fh sh := by
  have hr : List.range 64 =
      (List.range 8).map (fun i => 0 + i) ++
      ((List.range 8).map (fun i => 8 + i) ++
      ((List.range 8).map (fun i => 16 + i) ++
      ((List.range 8).map (fun i => 24 + i) ++
      ((List.range 8).map (fun i => 32 + i) ++
      ((List.range 8).map (fun i => 40 + i) ++
      ((List.range 8).map (fun i => 48 + i) ++
      (List.range 8).map (fun i => 56 + i))))))) := by decide
  have hb0 := filterBlock (fun p => (responseByteFor fh sh p).testBit (p % 8))
    fh.daliResponse 0 (by
      intro i hi
      have hdiv : (0 + i) / 8 = 0 := by omega
      have hmod : (0 + i) % 8 = i := by omega
      simp only [responseByteFor]
      rw [hdiv, hmod])
  have hb1 := filterBlock (fun p => (responseByteFor fh sh p).testBit (p % 8))
    fh.message3 8 (by
      intro i hi
      have hdiv : (8 + i) / 8 = 1 := by omega
      have hmod : (8 + i) % 8 = i := by omega
      simp only [responseByteFor]
      rw [hdiv, hmod])
  have hb2 := filterBlock (fun p => (responseByteFor fh sh p).testBit (p % 8))
    fh.message2 16 (by
      intro i hi
      have hdiv : (16 + i) / 8 = 2 := by omega
      have hmod : (16 + i) % 8 = i := by omega
      simp only [responseByteFor]
      rw [hdiv, hmod])
  have hb3 := filterBlock (fun p => (responseByteFor fh sh p).testBit (p % 8))
    fh.message1 24 (by
      intro i hi
      have hdiv : (24 + i) / 8 = 3 := by omega
      have hmod : (24 + i) % 8 = i := by omega
      simp only [responseByteFor]
      rw [hdiv, hmod])
  have hb4 := filterBlock (fun p => (responseByteFor fh sh p).testBit (p % 8))
    sh.daliResponse 32 (by
      intro i hi
      have hdiv : (32 + i) / 8 = 4 := by omega
      have hmod : (32 + i) % 8 = i := by omega
      simp only [responseByteFor]
      rw [hdiv, hmod])
  have hb5 := filterBlock (fun p => (responseByteFor fh sh p).testBit (p % 8))
    sh.message3 40 (by
      intro i hi
      have hdiv : (40 + i) / 8 = 5 := by omega
      have hmod : (40 + i) % 8 = i := by omega
      simp only [responseByteFor]
      rw [hdiv, hmod])
  have hb6 := filterBlock (fun p => (responseByteFor fh sh p).testBit (p % 8))
    sh.message2 48 (by
      intro i hi
      have hdiv : (48 + i) / 8 = 6 := by omega
      have hmod : (48 + i) % 8 = i := by omega
      simp only [responseByteFor]
      rw [hdiv, hmod])
  have hb7 := filterBlock (fun p => (responseByteFor fh sh p).testBit (p % 8))
    sh.message1 56 (by
      intro i hi
      have hdiv : (56 + i) / 8 = 7 := by omega
      have hmod : (56 + i) % 8 = i := by omega
      simp only [responseByteFor]
      rw [hdiv, hmod])
  unfold shortAddressPresentSpec
  rw [hr]
  simp only [List.filter_append]
  rw [hb0, hb1, hb2, hb3, hb4, hb5, hb6, hb7]
  simp [queryShortAddressPresent, daliResponseToChannelList,
    bitPositions_eq_filter_testBit, List.append_assoc]

/-! ## Claim theorems -/

/-- C1, counterexample: `write_coil(3, v)` puts a `write_coil` request with
address 3 — not 0x0200 + 3 — on the wire, and `write_register(3, v)` likewise
writes at wire address 3; the claimed offset write never appears in the
operation list. -/
theorem writeWireAddressCounterexample :
    writeCoilOps ⟨96, 96, 64, 64⟩ 3 true =
      [.writeSingleCoil 3 true, .readCoils 0x0200 64] ∧
    WireOp.writeSingleCoil 3 true ≠ WireOp.writeSingleCoil (0x0200 + 3) true ∧
    writeRegisterOps ⟨96, 96, 64, 64⟩ 3 0x1234 =
      [.writeSingleRegister 3 0x1234, .readHoldingRegisters 0x0200 6] ∧
    WireOp.writeSingleRegister 3 0x1234 ≠
      WireOp.writeSingleRegister (0x0200 + 3) 0x1234 := by
  decide

/-- C1, amended: writes to coil and holding channels go to the wire at the
LOCAL (0-based) address, unmodified; only the read/refresh path adds the
0x0200 base when talking to the wire.  Every write is followed by a
full-region refresh (which does read from 0x0200). -/
theorem writeUsesLocalAddressReadAddsOffset (b : BitsInState) (a v : Nat)
    (bv : Bool) (vs : List Nat) :
    writeCoilOps b a bv = [.writeSingleCoil a bv, .readCoils 0x0200 b.coilBits] ∧
    writeRegisterOps b a v =
      [.writeSingleRegister a v, .readHoldingRegisters 0x0200 (b.holdingBits / 16)] ∧
    writeRegistersOps b a vs =
      [.writeMultipleRegisters a vs, .readHoldingRegisters 0x0200 (b.holdingBits / 16)] ∧
    updateCoilStateOps b (some a) none = [.readCoils (a + 0x0200) (b.coilBits - a)] ∧
    updateHoldingStateOps b (some a) none =
      [.readHoldingRegisters (a + 0x0200) (b.holdingBits / 16 - a)] := by
  refine ⟨?_, ?_, ?_, ?_, ?_⟩ <;>
    simp [writeCoilOps, writeRegisterOps, writeRegistersOps,
      updateCoilStateOps, updateHoldingStateOps]

/-- C2: the identifier decoder is a total function; whenever bit 15 of the
identifier word is set the descriptor is digital and its channel count — in
discrete cells when bit 14 is clear, coil cells when bit 14 is set — equals
`w & 0xFF`; non-digital values outside the static family catalogue yield the
generic zero-channel descriptor. -/
theorem identifierDecoderDigitalAndGeneric (w : Nat) :
    (w.testBit 15 = true →
      (moduleIdentifierDecode w).ioType.digital = true ∧
      (if w.testBit 14 then (moduleIdentifierDecode w).channels.coil
       else (moduleIdentifierDecode w).channels.discrete) = w &&& 0xFF) ∧
    (w.testBit 15 = false → knownFamilies.lookup w = none →
      moduleIdentifierDecode w = genericModuleSpec) := by
  refine ⟨?_, ?_⟩
  · intro h15
    by_cases h14 : w.testBit 14 <;> simp [moduleIdentifierDecode, h15, h14]
  · intro h15 hlk
    simp [moduleIdentifierDecode, h15, hlk]

/-- C2 witness: 0x8408 has bit 15 set and bit 14 clear, so it decodes to a
digital descriptor with 0x8408 & 0xFF = 8 discrete cells; 999 is non-digital
and not in the catalogue, so it decodes to the generic descriptor. -/
theorem identifierDecoderDigitalAndGenericWitness :
    (moduleIdentifierDecode 0x8408).ioType.digital = true ∧
    (moduleIdentifierDecode 0x8408).channels.discrete = 0x8408 &&& 0xFF ∧
    moduleIdentifierDecode 999 = genericModuleSpec := by
  have h1 := (identifierDecoderDigitalAndGeneric 0x8408).1 (by decide)
  have h2 := (identifierDecoderDigitalAndGeneric 999).2 (by decide) (by decide)
  have h14 : Nat.testBit 0x8408 14 = false := by decide
  exact ⟨h1.1, by simpa [h14] using h1.2, h2⟩

set_option maxRecDepth 20000 in
/-- C3: on a controller whose identification registers at 0x2030, 0x2031,
0x2032 hold 352, 0x8408, 641 and every later register holds 0, discovery
issues three OVERLAPPING 64-register reads at 0x2030, 0x2031 and 0x2032
(not one consecutive 192-register window), skips zero values without
terminating, and instantiates SIX modules — the three real ones plus the
duplicates the overlap re-reads — not the three the claim predicts. -/
theorem discoveryOverlappingReadsSixModules :
    discoveryReadOps =
      [.readInputRegisters 0x2030 64, .readInputRegisters 0x2031 64,
        .readInputRegisters 0x2032 64] ∧
    discoveredModuleIdentifiers
        (fun a => if a = 0x2030 then 352 else if a = 0x2031 then 0x8408
          else if a = 0x2032 then 641 else 0) true =
      [352, 0x8408, 641, 0x8408, 641, 641] ∧
    (discoveredModuleIdentifiers
        (fun a => if a = 0x2030 then 352 else if a = 0x2031 then 0x8408
          else if a = 0x2032 then 641 else 0) true).length = 6 := by
  decide

/-- C4, counterexample: feeding the claim's own response bytes — first half
0x84, 0x42, 0x04, 0x81 and second half 0x11, 0x21, 0x01, 0x84, assigned to the
byte groups in ascending address order — through the query produces
[2, 7, 9, 14, 18, 24, 31, 32, 36, 40, 45, 48, 58, 63], not the claimed list.
(No assignment of those bytes can produce it: each half has 7 set bits while
the claimed list has 8 positions per half.) -/
theorem shortAddressPresentClaimBytesCounterexample :
    queryShortAddressPresent (some ⟨0x84, 0x81, 0x04, 0x42⟩)
        (some ⟨0x11, 0x84, 0x01, 0x21⟩) =
      [2, 7, 9, 14, 18, 24, 31, 32, 36, 40, 45, 48, 58, 63] ∧
    queryShortAddressPresent (some ⟨0x84, 0x81, 0x04, 0x42⟩)
        (some ⟨0x11, 0x84, 0x01, 0x21⟩) ≠
      [2, 7, 10, 14, 18, 21, 26, 28, 32, 36, 40, 45, 48, 54, 56, 63] := by
  decide

/-- C4, amended: each half of the presence query yields 4 response bytes, each
bit corresponds to one short address (LSB = address 0 of its byte group,
second half offset by 32), and the merged result is the ascending list of set
positions — proved as agreement with the reference filter over addresses
0..63 for ALL response bytes; with first-half bytes 0x84, 0x44, 0x24, 0x14 and
second-half bytes 0x11, 0x21, 0x41, 0x81 the result is exactly the claimed
list. -/
theorem shortAddressPresentMergedSorted :
    (∀ fh sh : DaliInputMessage,
      queryShortAddressPresent (some fh) (some sh) = shortAddressPresentSpec fh sh) ∧
    queryShortAddressPresent (some ⟨0x84, 0x14, 0x24, 0x44⟩)
        (some ⟨0x11, 0x81, 0x41, 0x21⟩) =
      [2, 7, 10, 14, 18, 21, 26, 28, 32, 36, 40, 45, 48, 54, 56, 63] :=
  ⟨shortAddressPresent_eq_spec, by decide⟩

/-- C5: evaluating the counter `set` path.  With control word 0, a 3-word
input snapshot whose ack bit is clear, and value 2, the setter issues exactly
one control-byte write (bit 5 set) plus the write-through holding refresh —
it never writes the value to holding words 1..2; the value lands in the local
input-register copy instead; the single ack check is served from a stale
cache snapshot (`discardedCacheReads = 1`, no polling loop); no timeout can
be raised and the set_counter bit is left at 1.  The scenario value
0x00010000 does not even reach the wire: `value.to_bytes()` overflows. -/
theorem counterSetWritesNoValueNoWait :
    counterValueSet ⟨48, 48, 0, 0⟩ 0 0 [0, 0, 0] 2 =
      some { wireOps := [.writeMultipleRegisters 0 [32], .readHoldingRegisters 0x0200 3]
             localInputCopyAfter := [0, 2, 2]
             discardedCacheReads := 1
             raisesTimeout := false
             finalSetCounterBit := true } ∧
    counterValueSet ⟨48, 48, 0, 0⟩ 0 0 [0, 0, 0] 0x00010000 = none := by
  decide

/-- C6: one full iteration of the continuous-update poller dispatches no
change notification whatever the cached-value transitions are, and setting a
channel's `on_change_callback` stores the callback on the channel but leaves
the connection — which owns no registration map — completely unchanged. -/
theorem pollerDispatchesNothingRegistrationNoOp (now : Nat) (ck : PollerClock)
    (st : ConnState) (wi wh : List Nat) (wd wc : List Bool)
    (ch : WagoChannelRec) (conn : ModbusConnectionState) (cb : Option Nat) :
    (continuousUpdateTick now ck st wi wh wd wc).dispatched = [] ∧
    (setOnChangeCallback ch conn cb).2 = conn ∧
    (setOnChangeCallback ch conn cb).1.onChangeCallback = cb :=
  ⟨rfl, rfl, rfl⟩

/-- C7: the failing round trip.  `value_to_int` of the two-cell Words
[0x00FF, 0x00FF] is 0x00FF00FF, and feeding that integer back to the source's
`Words.__init__` — which converts its argument with
`np.array(·, dtype=np.uint16)` — overflows instead of splitting the value
into little-order 16-bit cells. -/
theorem wordsIntRoundTripBroken :
    wordsValueToInt [0x00FF, 0x00FF] = 0x00FF00FF ∧
    npUint16Scalar 0x00FF00FF = none := by
  decide

/-- C8: the retry policy of `auto_reconnect`.  A broken pipe on the first
attempt followed by success is invisible to the caller (one reconnect, value
returned); three consecutive broken pipes exhaust the 3 attempts and fail
with the communication error; any other error propagates on the first attempt
with no reconnect; and `reconnect` closes the socket (when open) before
reopening it. -/
theorem autoReconnectRetryPolicy :
    (∀ (α : Type) (v : α),
      autoReconnect (fun i => if i = 0 then CallOutcome.brokenPipe else .ok v) =
        (.ok v, 1)) ∧
    (∀ (α : Type),
      autoReconnect (fun _ => (CallOutcome.brokenPipe : CallOutcome α)) =
        (.commError, 3)) ∧
    (∀ (α : Type) (g : Nat → CallOutcome α),
      autoReconnect (fun i => if i = 0 then CallOutcome.otherError else g i) =
        (.raised, 0)) ∧
    reconnectOps true = [.closeSocket, .connectSocket] ∧
    reconnectOps false = [.connectSocket] :=
  ⟨fun _ _ => rfl, fun _ => rfl, fun _ _ => rfl, rfl, rfl⟩

/-- C9: `Bits.__eq__` never equates two `Bits` values — its `isinstance`
check demands a `Words` — so for every `Bits` content `bs`, comparing with
its own copy yields `False` instead of content equality. -/
theorem bitsEqRejectsOwnCopy (bs : List Bool) :
    bitsEqPy bs (RegOperand.bits (bitsCopy bs)) = false :=
  rfl

/-- C10: single-cell cache reads with `update=False` put nothing on the wire,
return the cached cell for every in-range address, and raise an unguarded
index error (modelled as `none`) for every address at or beyond the
configured width of the space. -/
theorem cachedReadsNoIOAndPartial (b : BitsInState) (st : ConnState) (a : Nat) :
    readCoilWireOps b a false = [] ∧
    readInputRegisterWireOps b a false = [] ∧
    readCoilCached st a =
      (if a < st.coilState.length then some (st.coilState.getD a false) else none) ∧
    readInputRegisterCached st a =
      (if a < st.inputState.length then some (st.inputState.getD a 0) else none) :=
  ⟨rfl, rfl, listGetQIte _ a false, listGetQIte _ a 0⟩

end Wg750
